import Mathlib

/-!
Shallow embedding of alyx/ssl-cert-server: the server response handlers
(src/unnamed/part_000, package main) and the client cache engine
(src/unnamed/part_001, package tlsconfig), plus the key-encoding helpers of
src/server/autocert.go.

Modelling conventions:
  * Unix timestamps are `Int` (seconds since epoch); Go `time.Duration`
    values that the code only compares/converts at whole-second granularity
    are modelled as second counts.
  * Go byte slices are `List Nat`; a nilable `[]byte` is `Option (List Nat)`
    (`none` is Go `nil`, distinguishable from `some []`).
  * External library calls (autocert manager, idna.Lookup.ToASCII, the HTTP
    round trips, pem/asn1 marshalling) are oracle parameters: the claims are
    about this repository's control flow around them, not about the
    libraries.
  * `int(ttl.Seconds() * 0.8)` on a whole number of seconds `r` with
    `0 < r ≤ 3600` equals `r * 4 / 5` in exact integer arithmetic
    (float64 represents r exactly and the product perturbation, bounded by
    r * 2⁻⁵⁴ · ≪ 1, cannot cross an integer below the true value r·4/5), so
    the TTL computation is embedded over `Nat`.
-/

/-- Parsed leaf certificate metadata (crypto/x509 Certificate fields the
repository reads: NotAfter as Unix seconds, OCSPServer URL list). -/
structure Leaf where
  notAfter : Int
  ocspServer : List String
  deriving DecidableEq, Repr

/-- Private key of a tls.Certificate as the server handler classifies it:
an RSA key carries its PKCS#1 DER bytes, an ECDSA key carries the result of
x509.MarshalECPrivateKey (`none` models a marshalling failure), `other` is
the default switch branch. -/
inductive PrivateKey where
  | rsa (pkcs1Der : List Nat)
  | ecdsa (secDer : Option (List Nat))
  | other
  deriving DecidableEq, Repr

/-- tls.Certificate, restricted to the fields this repository touches:
the DER chain, the OCSPStaple slice (nil ↔ none) and the parsed leaf. -/
structure TLSCertificate where
  certificate : List (List Nat)
  ocspStaple : Option (List Nat)
  leaf : Leaf
  privateKey : PrivateKey
  deriving DecidableEq, Repr

/-- cacheCertificate of src/unnamed/part_001 lines 21-31: one cached entry
of the client cache engine. -/
structure cacheCertificate where
  cert : TLSCertificate
  certType : Int
  fingerprint : String
  certExpire : Int
  certRefresh : Int
  staplingExpire : Int
  staplingRefresh : Int
  deriving DecidableEq, Repr

/-- hasStapling of src/unnamed/part_001 lines 331-333. -/
def hasStapling (certType : Int) : Bool :=
  certType < 100

/- ===== Server side: TTL computation and the two handlers (part_000) ===== -/

/-- TTL computation of CertificateHandler, src/unnamed/part_000 lines
124-133: cap at 3600 seconds, otherwise 80 percent of the remaining
lifetime, then subtract the random draw `n = mathrand.Intn(100)` when it is
below the computed value. `remaining` is the (positive) remaining lifetime
in seconds, the `ttl ≤ 0` case having been handled by the caller. -/
def certTTLSeconds (remaining : Nat) (n : Nat) : Nat :=
  let t := if remaining > 3600 then 3600 else remaining * 4 / 5
  if n < t then t - n else t

/-- TTL computation of OCSPStaplingHandler, src/unnamed/part_000 lines
204-213; textually the same computation as in CertificateHandler. -/
def staplingTTLSeconds (remaining : Nat) (n : Nat) : Nat :=
  let t := if remaining > 3600 then 3600 else remaining * 4 / 5
  if n < t then t - n else t

/-- Error taxonomy of manager.GetCertificateByName as the certificate
handler discriminates it (part_000 lines 101-112): ErrNotPermitted versus
anything else. -/
inductive ManagerErr where
  | notPermitted
  | other
  deriving DecidableEq, Repr

/-- EncodeRSAKey of src/server/autocert.go lines 72-76: PEM block of type
"RSA PRIVATE KEY" around the PKCS#1 DER bytes. `pe` is the pem.Encode
oracle (block type, DER bytes ↦ PEM text); encoding into a bytes.Buffer
cannot fail. -/
def EncodeRSAKey (pe : String → List Nat → String) (pkcs1Der : List Nat) : String :=
  pe "RSA PRIVATE KEY" pkcs1Der

/-- EncodeECDSAKey of src/server/autocert.go lines 78-85: PEM block of type
"EC PRIVATE KEY"; fails iff x509.MarshalECPrivateKey failed. -/
def EncodeECDSAKey (pe : String → List Nat → String) (secDer : Option (List Nat)) :
    Option String :=
  secDer.map (pe "EC PRIVATE KEY")

/-- The private-key switch of CertificateHandler, part_000 lines 147-164:
RSA → EncodeRSAKey, ECDSA → EncodeECDSAKey, anything else → failure
(internal error in the handler). -/
def encodePrivateKey (pe : String → List Nat → String) : PrivateKey → Option String
  | .rsa d => some (EncodeRSAKey pe d)
  | .ecdsa m => EncodeECDSAKey pe m
  | .other => none

/-- Successful JSON body of CertificateHandler: the anonymous struct of
part_000 lines 166-176. -/
structure certResponseBody where
  cert : String
  pkey : String
  expire_at : Int
  ttl : Nat
  deriving DecidableEq, Repr

/-- The json.Marshal field list of part_000 lines 166-176, in struct-tag
order: the body serializes exactly these four key/value pairs. -/
def marshalCertResponse (b : certResponseBody) : List (String × String) :=
  [("cert", b.cert), ("pkey", b.pkey),
   ("expire_at", toString b.expire_at), ("ttl", toString b.ttl)]

/-- Observable outcome of CertificateHandler: HTTP status plus body.
`forbidden` is 403 with the "Domain name not permitted." text,
`internalError` is 500, `serviceUnavailable` is 503 with an empty body,
`ok` is 200 with the JSON body. -/
inductive CertHandlerOutput where
  | forbidden
  | internalError
  | serviceUnavailable
  | ok (body : certResponseBody)
  deriving DecidableEq, Repr

/-- CertificateHandler of src/unnamed/part_000 lines 98-180, from the point
the manager result is in hand. `pe` is the pem.Encode oracle, `now` is
time.Now() in Unix seconds, `n` the mathrand.Intn(100) draw, `fetched` the
manager.GetCertificateByName result. -/
def CertificateHandler (pe : String → List Nat → String) (now : Int) (n : Nat)
    (fetched : Except ManagerErr TLSCertificate) : CertHandlerOutput :=
  match fetched with
  | .error .notPermitted => .forbidden
  | .error .other => .internalError
  | .ok cert =>
    let ttl : Int := cert.leaf.notAfter - now
    if ttl ≤ 0 then
      .serviceUnavailable
    else
      let ttlSeconds := certTTLSeconds ttl.toNat n
      let certBuf := String.join (cert.certificate.map (fun b => pe "CERTIFICATE" b))
      match encodePrivateKey pe cert.privateKey with
      | none => .internalError
      | some privKeyBuf =>
        .ok { cert := certBuf, pkey := privKeyBuf,
              expire_at := cert.leaf.notAfter, ttl := ttlSeconds }

/-- Error taxonomy of manager.GetOCSPStapling as the handler discriminates
it (part_000 lines 185-193): ErrCacheMiss versus anything else. -/
inductive OCSPErr where
  | cacheMiss
  | other
  deriving DecidableEq, Repr

/-- Observable outcome of OCSPStaplingHandler: 404, 500, 503 (empty body),
or 200 carrying the raw OCSP bytes plus the X-Expire-At and X-TTL headers. -/
inductive OCSPHandlerOutput where
  | notFound
  | internalError
  | serviceUnavailable
  | ok (body : List Nat) (xExpireAt : Int) (xTTL : Nat)
  deriving DecidableEq, Repr

/-- OCSPStaplingHandler of src/unnamed/part_000 lines 182-219, from the
point the manager result `(response, nextUpdate)` is in hand. -/
def OCSPStaplingHandler (now : Int) (n : Nat)
    (fetched : Except OCSPErr (List Nat × Int)) : OCSPHandlerOutput :=
  match fetched with
  | .error .cacheMiss => .notFound
  | .error .other => .internalError
  | .ok (response, nextUpdate) =>
    let ttl : Int := nextUpdate - now
    if ttl ≤ 0 then
      .serviceUnavailable
    else
      .ok response nextUpdate (staplingTTLSeconds ttl.toNat n)

/-- An inbound request to the OCSP handler: the :domain path parameter and
the URL query pairs (the client sends fp=fingerprint here, part_001 line
207). -/
structure WebRequest where
  pathDomain : String
  query : List (String × String)
  deriving DecidableEq, Repr

/-- The full OCSPStaplingHandler of part_000 lines 182-219 at the request
level: it reads r.PathParams["domain"] only, passes it to
manager.GetOCSPStapling (oracle `getOCSP`) and never consults the URL
query. -/
def OCSPStaplingHandlerServe (getOCSP : String → Except OCSPErr (List Nat × Int))
    (now : Int) (n : Nat) (r : WebRequest) : OCSPHandlerOutput :=
  let domain := r.pathDomain
  OCSPStaplingHandler now n (getOCSP domain)

/- ===== Client side: the cache engine (part_001) ===== -/

/-- Options of the tlsconfig package. Its type declaration is not among the
provided sources; the fields are taken from the usage sites in
src/unnamed/part_001 (DisableStapling at lines 137 and 298, AllowDomains,
PreloadDomains, PreloadAsync at lines 54-57). -/
structure Options where
  DisableStapling : Bool
  AllowDomains : List String
  PreloadDomains : List String
  PreloadAsync : Bool

/-- Client of src/unnamed/part_001 lines 33-39, restricted to the fields
the modelled operations read. `opts` is the nilable *Options pointer; the
host policy is a function from a name to `some errorMessage` or `none`
(allow). The sync.Map cache is passed explicitly to each operation. -/
structure ClientModel where
  serverHost : String
  opts : Option Options
  hostPolicy : Option (String → Option String)

/-- NewClient of src/unnamed/part_001 lines 41-61. `mkWhitelist` stands for
makeHostWhitelist (not among the provided sources). Note that the source
constructs `client` with only the serverHost field (lines 46-48) and, even
when `opts != nil`, assigns only `client.hostPolicy` — the `opts` field of
the returned Client is never assigned. -/
def NewClient (mkWhitelist : List String → (String → Option String))
    (sslCertServerHost : String) (opts : Option Options) : ClientModel :=
  let host := if sslCertServerHost.startsWith "http://" then sslCertServerHost
              else "http://" ++ sslCertServerHost
  let host := if host.endsWith "/" then host.dropRight 1 else host
  { serverHost := host
    opts := none
    hostPolicy :=
      match opts with
      | some o => some (mkWhitelist o.AllowDomains)
      | none => none }

/-- Cache-hit branch of getCertificate, src/unnamed/part_001 lines 100-121:
given `now = time.Now().Unix()` and the loaded entry, returns the entry
left in the cache and the certificate returned to the caller. The source
condition for abandoning the stapling is
`cached.staplingExpire > 0 && cached.staplingExpire <= now-60`. -/
def getCertificateHit (now : Int) (cached : cacheCertificate) :
    cacheCertificate × TLSCertificate :=
  if cached.staplingExpire > 0 ∧ cached.staplingExpire ≤ now - 60 then
    let newCert := { cached.cert with ocspStaple := none }
    let newCacheCert : cacheCertificate :=
      { cert := newCert
        certType := cached.certType
        fingerprint := cached.fingerprint
        certExpire := cached.certExpire
        certRefresh := cached.certRefresh
        staplingExpire := 0
        staplingRefresh := 0 }
    (newCacheCert, newCert)
  else
    (cached, cached.cert)

/-- Decoded JSON response of the /cert endpoint as the client expects it:
the struct of src/unnamed/part_001 lines 156-163. -/
structure CertResponse where
  type : Int
  cert : String
  pkey : String
  fingerprint : String
  expire_at : Int
  ttl : Int
  deriving DecidableEq, Repr

/-- Certificate produced by tls.X509KeyPair + x509.ParseCertificate in
requestCertificate (part_001 lines 184-192): a freshly parsed key pair
carries no OCSP staple. -/
def x509KeyPairCert (chain : List (List Nat)) (leaf : Leaf) (key : PrivateKey) :
    TLSCertificate :=
  { certificate := chain, ocspStaple := none, leaf := leaf, privateKey := key }

/-- Entry construction of requestCertificate, src/unnamed/part_001 lines
194-200, after a 200 response decoded as `resp` whose PEM payload parsed to
`chain`/`leaf`/`key`: certExpire is the server's expire_at, certRefresh is
the client clock `now` plus the server-supplied TTL; the stapling fields
are left at their zero values. -/
def requestCertificateModel (now : Int) (resp : CertResponse)
    (chain : List (List Nat)) (leaf : Leaf) (key : PrivateKey) : cacheCertificate :=
  { cert := x509KeyPairCert chain leaf key
    certType := resp.type
    fingerprint := resp.fingerprint
    certExpire := resp.expire_at
    certRefresh := now + resp.ttl
    staplingExpire := 0
    staplingRefresh := 0 }

/-- Result of one requestStapling call (part_001 lines 204-234): `none` is
an error return; a success carries (stapling, expireAt, refreshAt), where
the stapling bytes are themselves optional because a 204 response returns
with all named results at their zero values (nil bytes, 0, 0). -/
abbrev StapleFetch : Type := Option (Option (List Nat) × Int × Int)

/-- Cache-miss branch of getCertificate, src/unnamed/part_001 lines
123-151. `requestCert` is the requestCertificate result (`none` = error)
and `requestStap` the requestStapling oracle. The outer `none` of the
result models the nil-pointer dereference panic at line 137
(`c.opts.DisableStapling`) when `c.opts` is nil; otherwise the result is
the error propagated from requestCertificate or the entry stored into the
cache (whose certificate is also returned to the caller). -/
def getCertificateMiss (c : ClientModel) (requestCert : Option cacheCertificate)
    (requestStap : StapleFetch) : Option (Except Unit cacheCertificate) :=
  match requestCert with
  | none => some (.error ())
  | some respCert =>
    match c.opts with
    | none => none
    | some opts =>
      let fetched : Option (List Nat) × Int × Int :=
        if !opts.DisableStapling ∧ hasStapling respCert.certType
            ∧ respCert.cert.leaf.ocspServer ≠ [] then
          match requestStap with
          | some r => r
          | none => (none, 0, 0)
        else (none, 0, 0)
      let stored : cacheCertificate :=
        { respCert with
          cert := { respCert.cert with ocspStaple := fetched.1 }
          staplingExpire := fetched.2.1
          staplingRefresh := fetched.2.2 }
      some (.ok stored)

/-- One iteration of the refresh loop of src/unnamed/part_001 lines
263-323, for a single snapshot entry `citem`. `disableStapling` is
c.opts.DisableStapling, `certFetch` the requestCertificate result oracle
(`none` = error), `stapFetch` the requestStapling oracle. Returns `none`
when the entry is skipped (both refresh instants in the future, line 264),
else `some` of the entry stored back into the cache (line 322). Note the
struct literal of lines 274-280 lists neither certType nor fingerprint, so
they start from their zero values. -/
def refreshEntry (disableStapling : Bool) (now : Int)
    (certFetch : Option cacheCertificate) (stapFetch : StapleFetch)
    (citem : cacheCertificate) : Option cacheCertificate :=
  if citem.certRefresh > now ∧ citem.staplingRefresh > now then
    none
  else
    let cert := citem.cert
    let n0 : cacheCertificate :=
      { cert := cert
        certType := 0
        fingerprint := ""
        certRefresh := citem.certRefresh
        certExpire := citem.certExpire
        staplingRefresh := citem.staplingRefresh
        staplingExpire := citem.staplingExpire }
    let n1 : cacheCertificate :=
      if n0.certRefresh ≤ now then
        match certFetch with
        | none => n0
        | some respCert =>
          { n0 with
            cert := respCert.cert
            certType := respCert.certType
            fingerprint := respCert.fingerprint
            certExpire := respCert.certExpire
            certRefresh := respCert.certRefresh }
      else n0
    let n2 : cacheCertificate :=
      if !disableStapling ∧ hasStapling n1.certType
          ∧ n1.cert.leaf.ocspServer ≠ [] ∧ n1.staplingRefresh ≤ now then
        match stapFetch with
        | none =>
          if n1.staplingExpire - now < 120 then
            { n1 with
              cert := { n1.cert with ocspStaple := none }
              staplingExpire := 0
              staplingRefresh := 0 }
          else n1
        | some (newStapling, expireAt, refreshAt) =>
          { n1 with
            cert := { n1.cert with ocspStaple := newStapling }
            staplingExpire := expireAt
            staplingRefresh := refreshAt }
      else n1
    some n2

/-- The list of cache stores performed by one refresh pass (part_001 lines
256-329) over a snapshot given as an association list, with per-domain
fetch oracles: each non-skipped entry contributes the store of line 322
under its domain name. -/
def refreshPass (disableStapling : Bool) (now : Int)
    (certFetch : String → Option cacheCertificate)
    (stapFetch : String → StapleFetch)
    (cached : List (String × cacheCertificate)) : List (String × cacheCertificate) :=
  cached.filterMap (fun p =>
    (refreshEntry disableStapling now (certFetch p.1) (stapFetch p.1) p.2).map
      (fun nc => (p.1, nc)))

/- ===== Client side: GetCertificate front door (part_001 lines 63-96) ===== -/

/-- strings.Trim(name, ".") on the character list: remove all leading and
trailing dots. -/
def trimDots (s : List Char) : List Char :=
  ((s.dropWhile (fun c => c = '.')).reverse.dropWhile (fun c => c = '.')).reverse

/-- Error outcomes of the client GetCertificate front door, in source
order: the three validation errors of part_001 lines 65-83, a host-policy
rejection (line 86, the error value propagated unchanged), and the wrapped
error of a failed inner getCertificate (line 93). -/
inductive GetCertErr where
  | missingServerName
  | invalidComponentCount
  | invalidCharacter
  | notPermitted (e : String)
  | failedGet (e : String)
  deriving DecidableEq, Repr

/-- GetCertificate of src/unnamed/part_001 lines 63-96. `toASCII` is the
idna.Lookup.ToASCII oracle (`none` = conversion error); `hostPolicy` is
c.hostPolicy (nil pointer ↔ `none`); `fetch` stands for the inner
c.getCertificate remote path. Checks run in source order: empty name,
dot-separated component count on the dot-trimmed name, IDNA conversion,
host policy, and only then the fetch. -/
def GetCertificate (toASCII : String → Option String)
    (hostPolicy : Option (String → Option String))
    (fetch : String → Except String TLSCertificate)
    (name : String) : Except GetCertErr TLSCertificate :=
  if name = "" then
    .error .missingServerName
  else if ¬ ((trimDots name.toList).contains '.') then
    .error .invalidComponentCount
  else
    match toASCII name with
    | none => .error .invalidCharacter
    | some name1 =>
      let policyResult : Option String :=
        match hostPolicy with
        | some hp => hp name1
        | none => none
      match policyResult with
      | some e => .error (.notPermitted e)
      | none =>
        match fetch name1 with
        | .error e => .error (.failedGet e)
        | .ok cert => .ok cert

/- ===== Shared helper lemmas and concrete fixtures ===== -/

/-- The jittered TTL never exceeds the remaining lifetime it was computed
from. -/
lemma certTTLSeconds_le_remaining (r n : Nat) : certTTLSeconds r n ≤ r := by
  simp only [certTTLSeconds]
  split_ifs <;> omega

/-- An entry whose two refresh instants are both in the future is skipped
by the refresh pass (line 264 of part_001). -/
lemma refreshEntry_skipped (ds : Bool) (now : Int)
    (cf : Option cacheCertificate) (sf : StapleFetch) (citem : cacheCertificate)
    (h1 : citem.certRefresh > now) (h2 : citem.staplingRefresh > now) :
    refreshEntry ds now cf sf citem = none := by
  simp only [refreshEntry]
  rw [if_pos ⟨h1, h2⟩]

/-- Concrete pem.Encode oracle for witnesses: tags the block type. -/
def pe0 : String → List Nat → String :=
  fun blockType _ => "PEM-" ++ blockType ++ ";"

/-- Concrete idna oracle that accepts every name unchanged. -/
def ta0 : String → Option String := fun s => some s

/-- Concrete idna oracle that rejects every name. -/
def ta1 : String → Option String := fun _ => none

/-- Concrete host policy rejecting everything. -/
def pol0 : String → Option String := fun _ => some "not permitted"

/-- Concrete inner-fetch oracle that always fails. -/
def f0 : String → Except String TLSCertificate := fun _ => .error "no"

/-- Cached entry whose stapling expires 30 seconds after the read instant
1000 (staplingExpire = 1030), with a staple present. -/
def c1entry : cacheCertificate :=
  { cert := { certificate := [[1]], ocspStaple := some [7, 7, 7],
              leaf := { notAfter := 99999, ocspServer := ["o"] },
              privateKey := .other }
    certType := 0
    fingerprint := "fp1"
    certExpire := 99999
    certRefresh := 99999
    staplingExpire := 1030
    staplingRefresh := 99999 }

/-- Decoded /cert response used to build the refreshed certificate of the
C2 scenario. -/
def c2resp : CertResponse :=
  { type := 1, cert := "newPEM", pkey := "newKEY", fingerprint := "newfp",
    expire_at := 9000, ttl := 3000 }

/-- Leaf of the freshly fetched certificate in the C2 scenario. -/
def c2leaf : Leaf := { notAfter := 9000, ocspServer := ["o"] }

/-- Freshly fetched certificate entry (requestCertificate result) of the
C2 scenario, built at client time 1000. -/
def c2new : cacheCertificate := requestCertificateModel 1000 c2resp [[2]] c2leaf .other

/-- Snapshot entry of the C2 scenario: both refreshes due at time 1000,
old staple [9, 9] held, stapling expiring at 1200 (200 seconds away, well
outside the 120-second abandonment window). -/
def c2old : cacheCertificate :=
  { cert := { certificate := [[1]], ocspStaple := some [9, 9],
              leaf := { notAfter := 5000, ocspServer := ["o"] },
              privateKey := .other }
    certType := 1
    fingerprint := "oldfp"
    certExpire := 5000
    certRefresh := 900
    staplingExpire := 1200
    staplingRefresh := 950 }

/-- Certificate the server handler serves in the C3/C7 witnesses: RSA key,
two-element chain, leaf expiring at 2000. -/
def c3cert : TLSCertificate :=
  { certificate := [[1], [2]], ocspStaple := none,
    leaf := { notAfter := 2000, ocspServer := [] }, privateKey := .rsa [3] }

/-- The body CertificateHandler produces for c3cert at now = 1000, n = 5:
remaining 1000 seconds, 1000 * 4 / 5 = 800, jitter 5 → ttl 795. -/
def c3body : certResponseBody :=
  { cert := "PEM-CERTIFICATE;PEM-CERTIFICATE;", pkey := "PEM-RSA PRIVATE KEY;",
    expire_at := 2000, ttl := 795 }

/-- Decoded form of c3body on the client side (type and fingerprint are
absent from the four-field body, hence decode to their zero values). -/
def c7resp : CertResponse :=
  { type := 0, cert := "PEM-CERTIFICATE;PEM-CERTIFICATE;",
    pkey := "PEM-RSA PRIVATE KEY;", fingerprint := "", expire_at := 2000,
    ttl := 795 }

/-- Expired certificate for the C6 witness: leaf already past NotAfter at
serving time 1000. -/
def c6cert : TLSCertificate :=
  { certificate := [[1]], ocspStaple := none,
    leaf := { notAfter := 500, ocspServer := [] }, privateKey := .rsa [3] }

/-- OCSP source for the C10 counterexample: a fixed staple for every
domain. -/
def c10manager : String → Except OCSPErr (List Nat × Int) :=
  fun _ => .ok ([1, 2, 3], 2000)

/-- Entry with both refresh instants in the future of now = 1000, for the
C9 witness. -/
def entry9 : cacheCertificate :=
  { cert := { certificate := [[1]], ocspStaple := some [5],
              leaf := { notAfter := 9000, ocspServer := ["o"] },
              privateKey := .other }
    certType := 1
    fingerprint := "fp"
    certExpire := 9000
    certRefresh := 2000
    staplingExpire := 3000
    staplingRefresh := 2000 }

/-- Snapshot for the C9 witness. -/
def cached9 : List (String × cacheCertificate) := [("example.com", entry9)]

/-- Per-domain certificate-fetch oracle that always fails, for witnesses. -/
def cf0 : String → Option cacheCertificate := fun _ => none

/-- Per-domain stapling-fetch oracle that always fails, for witnesses. -/
def sf0 : String → StapleFetch := fun _ => none

/- ===== Claim theorems ===== -/

/-- C1: the claim requires that a cache-hit read of an entry whose stapling
expires within 60 seconds (here: in 30 seconds, staplingExpire = 1030 read
at now = 1000) replaces the entry with a stapling-cleared copy and returns
a certificate without a staple. The source condition at part_001 line 105
is `staplingExpire <= now-60`, which is false here, so the code leaves the
entry untouched and serves the still-present staple: the entry is not
replaced and the returned certificate still carries OCSPStaple [7, 7, 7]. -/
theorem C1_expiring_stapling_served :
    (0 < c1entry.staplingExpire - 1000 ∧ c1entry.staplingExpire - 1000 ≤ 60) ∧
    getCertificateHit 1000 c1entry = (c1entry, c1entry.cert) ∧
    (getCertificateHit 1000 c1entry).2.ocspStaple = some [7, 7, 7] := by
  refine ⟨⟨by decide, by decide⟩, ?_, ?_⟩ <;> decide

/-- C2: scenario of the claim — entry c2old due for both refreshes at now
= 1000, certificate fetch succeeds (c2new), stapling fetch fails, and the
held stapling (bytes [9, 9]) is 200 seconds from its expiry, outside the
120-second abandonment window. The claim requires the stored artifact to
hold the new certificate together with the old stapling bytes; the code
(part_001 line 291 replaces the cert pointer with the staple-free
requestCertificate result) stores the new certificate with OCSPStaple nil
while keeping the old stapling timestamps. -/
theorem C2_stapling_lost_on_cert_refresh :
    c2old.cert.ocspStaple = some [9, 9] ∧
    c2old.staplingExpire - 1000 ≥ 120 ∧
    refreshEntry false 1000 (some c2new) none c2old =
      some { cert := { certificate := [[2]], ocspStaple := none,
                       leaf := c2leaf, privateKey := .other }
             certType := 1
             fingerprint := "newfp"
             certExpire := 9000
             certRefresh := 4000
             staplingExpire := 1200
             staplingRefresh := 950 } := by
  refine ⟨by decide, by decide, ?_⟩
  decide

/-- C3 counterexample: a concrete successful (200) run of the certificate
handler whose marshalled JSON body has neither a "type" nor a
"fingerprint" field — the struct of part_000 lines 166-176 serializes only
cert, pkey, expire_at and ttl. -/
theorem C3_cex_missing_fields :
    CertificateHandler pe0 1000 5 (.ok c3cert) = .ok c3body ∧
    ¬ ("type" ∈ (marshalCertResponse c3body).map Prod.fst) ∧
    ¬ ("fingerprint" ∈ (marshalCertResponse c3body).map Prod.fst) := by
  refine ⟨by decide, by decide, by decide⟩

/-- C3 (amended): every successful response of the certificate handler
marshals exactly the four fields cert, pkey, expire_at, ttl, in that
order, with cert holding the concatenated PEM CERTIFICATE blocks of the
chain and pkey the key-class-specific PEM encoding. -/
theorem C3_response_fields (pe : String → List Nat → String) (now : Int) (n : Nat)
    (c : TLSCertificate) (body : certResponseBody)
    (h : CertificateHandler pe now n (.ok c) = .ok body) :
    (marshalCertResponse body).map Prod.fst = ["cert", "pkey", "expire_at", "ttl"] ∧
    body.cert = String.join (c.certificate.map (fun b => pe "CERTIFICATE" b)) ∧
    encodePrivateKey pe c.privateKey = some body.pkey := by
  simp only [CertificateHandler] at h
  split at h
  · exact absurd h (by simp)
  · rename_i hpos
    split at h
    · exact absurd h (by simp)
    · rename_i privKeyBuf hk
      rw [CertHandlerOutput.ok.injEq] at h
      subst h
      exact ⟨rfl, rfl, hk⟩

/-- C3 witness: the amended statement evaluated on the concrete fixture. -/
theorem C3_response_fields_w :
    CertificateHandler pe0 1000 5 (.ok c3cert) = .ok c3body ∧
    (marshalCertResponse c3body).map Prod.fst = ["cert", "pkey", "expire_at", "ttl"] :=
  ⟨by decide, (C3_response_fields pe0 1000 5 c3cert c3body (by decide)).1⟩

/-- C4: NewClient leaves the opts field of the returned Client at nil for
every argument (including a non-nil one), and the cache-miss path of
getCertificate on such a client, once the certificate request has
succeeded, reaches the `c.opts.DisableStapling` dereference of part_001
line 137 with a nil pointer (modelled as the `none` outcome). -/
theorem C4_nil_opts_panic
    (mkWhitelist : List String → (String → Option String)) (host : String)
    (opts : Option Options) (rs : StapleFetch) (respCert : cacheCertificate) :
    (NewClient mkWhitelist host opts).opts = none ∧
    getCertificateMiss (NewClient mkWhitelist host opts) (some respCert) rs = none := by
  constructor
  · rfl
  · rfl

/-- C10 counterexample: a request for example.com carrying a stale
fingerprint and one carrying the current fingerprint produce identical
responses from the OCSP stapling handler — the server does not distinguish
them. -/
theorem C10_cex_fp_ignored :
    OCSPStaplingHandlerServe c10manager 1000 3
        { pathDomain := "example.com", query := [("fp", "stale-fp")] } =
      OCSPStaplingHandlerServe c10manager 1000 3
        { pathDomain := "example.com", query := [("fp", "current-fp")] } := by
  rfl

/-- C10 (amended): the OCSP stapling handler of part_000 reads only the
domain path parameter; its response is identical for every query string,
in particular for every fingerprint value, so the server cannot detect a
rotated client certificate from the fp parameter. -/
theorem C10_response_ignores_query
    (getOCSP : String → Except OCSPErr (List Nat × Int)) (now : Int) (n : Nat)
    (d : String) (q1 q2 : List (String × String)) :
    OCSPStaplingHandlerServe getOCSP now n { pathDomain := d, query := q1 } =
      OCSPStaplingHandlerServe getOCSP now n { pathDomain := d, query := q2 } := by
  rfl

/-- C5: the jittered TTL computation of the two handlers. For remaining
lifetime above 3600 seconds and any jitter draw below 100 the result lies
in [3500, 3600]; for 0 < remaining ≤ 3600 it is at most
floor(remaining * 0.8) and falls short of it by at most 99; and the
certificate handler and the stapling handler perform the identical
computation. -/
theorem C5_ttl_bounds :
    (∀ r n : Nat, 3600 < r → n < 100 →
      3500 ≤ certTTLSeconds r n ∧ certTTLSeconds r n ≤ 3600) ∧
    (∀ r n : Nat, 0 < r → r ≤ 3600 → n < 100 →
      certTTLSeconds r n ≤ r * 4 / 5 ∧ r * 4 / 5 ≤ certTTLSeconds r n + 99) ∧
    (∀ r n : Nat, certTTLSeconds r n = staplingTTLSeconds r n) := by
  refine ⟨?_, ?_, ?_⟩
  · intro r n hr hn
    simp only [certTTLSeconds]
    split_ifs <;> omega
  · intro r n hr hr2 hn
    simp only [certTTLSeconds]
    split_ifs <;> omega
  · intro r n
    rfl

/-- C5 witness: both bound clauses instantiated at concrete inputs. -/
theorem C5_ttl_bounds_w :
    (3600 < 4000 ∧ 20 < 100 ∧ 3500 ≤ certTTLSeconds 4000 20) ∧
    (0 < 1000 ∧ 1000 ≤ 3600 ∧ 20 < 100 ∧ certTTLSeconds 1000 20 ≤ 1000 * 4 / 5) :=
  ⟨⟨by decide, by decide, (C5_ttl_bounds.1 4000 20 (by decide) (by decide)).1⟩,
   ⟨by decide, by decide, by decide,
    (C5_ttl_bounds.2.1 1000 20 (by decide) (by decide) (by decide)).1⟩⟩

/-- C6: when the remaining lifetime is non-positive at serving time — the
certificate leaf past NotAfter, or the OCSP nextUpdate past — each handler
answers service-unavailable (a bare 503, whose output constructor carries
no body, so neither the expired certificate nor the stapling bytes are
returned). -/
theorem C6_expired_unavailable :
    (∀ (pe : String → List Nat → String) (now : Int) (n : Nat) (c : TLSCertificate),
      c.leaf.notAfter - now ≤ 0 →
      CertificateHandler pe now n (.ok c) = .serviceUnavailable) ∧
    (∀ (now : Int) (n : Nat) (body : List Nat) (nextUpdate : Int),
      nextUpdate - now ≤ 0 →
      OCSPStaplingHandler now n (.ok (body, nextUpdate)) = .serviceUnavailable) := by
  constructor
  · intro pe now n c h
    simp only [CertificateHandler]
    rw [if_pos h]
  · intro now n body nextUpdate h
    simp only [OCSPStaplingHandler]
    rw [if_pos h]

/-- C6 witness: the two clauses at concrete expired inputs. -/
theorem C6_expired_unavailable_w :
    (c6cert.leaf.notAfter - 1000 ≤ 0 ∧
      CertificateHandler pe0 1000 5 (.ok c6cert) = .serviceUnavailable) ∧
    ((2000 : Int) - 3000 ≤ 0 ∧
      OCSPStaplingHandler 3000 5 (.ok ([1], 2000)) = .serviceUnavailable) :=
  ⟨⟨by decide, C6_expired_unavailable.1 pe0 1000 5 c6cert (by decide)⟩,
   ⟨by decide, C6_expired_unavailable.2 3000 5 [1] 2000 (by decide)⟩⟩

/-- C8: the client GetCertificate front door rejects, without invoking the
remote fetch (the conclusion holds for every fetch oracle f): an empty
name; a name without a dot-separated label pair after trimming dots; a
name the IDNA lookup conversion rejects; and a normalized name the
configured host policy rejects, the latter surfacing as the distinct
not-permitted error value propagated from the policy. -/
theorem C8_get_certificate_rejections :
    (∀ (ta : String → Option String) (hp : Option (String → Option String))
        (f : String → Except String TLSCertificate),
      GetCertificate ta hp f "" = .error .missingServerName) ∧
    (∀ (ta : String → Option String) (hp : Option (String → Option String))
        (f : String → Except String TLSCertificate) (name : String),
      ¬ (name = "") → (trimDots name.toList).contains '.' = false →
      GetCertificate ta hp f name = .error .invalidComponentCount) ∧
    (∀ (ta : String → Option String) (hp : Option (String → Option String))
        (f : String → Except String TLSCertificate) (name : String),
      ¬ (name = "") → (trimDots name.toList).contains '.' = true →
      ta name = none →
      GetCertificate ta hp f name = .error .invalidCharacter) ∧
    (∀ (ta : String → Option String) (pol : String → Option String)
        (f : String → Except String TLSCertificate) (name name1 e : String),
      ¬ (name = "") → (trimDots name.toList).contains '.' = true →
      ta name = some name1 → pol name1 = some e →
      GetCertificate ta (some pol) f name = .error (.notPermitted e)) := by
  refine ⟨?_, ?_, ?_, ?_⟩
  · intro ta hp f
    rfl
  · intro ta hp f name hne hdot
    simp only [GetCertificate]
    rw [if_neg hne, if_pos (by simpa using hdot)]
  · intro ta hp f name hne hdot hta
    simp only [GetCertificate]
    rw [if_neg hne, if_neg (by simpa using hdot), hta]
  · intro ta pol f name name1 e hne hdot hta hpol
    simp only [GetCertificate]
    rw [if_neg hne, if_neg (by simpa using hdot), hta]
    simp only [hpol]

/-- C8 witness: the four rejection clauses at concrete names — empty,
bare single-label "localhost", an IDNA-rejected name, and "evil.test"
under an all-rejecting policy. -/
theorem C8_get_certificate_rejections_w :
    (GetCertificate ta0 none f0 "" = .error .missingServerName) ∧
    (¬ ("localhost" = "") ∧ (trimDots "localhost".toList).contains '.' = false ∧
      GetCertificate ta0 none f0 "localhost" = .error .invalidComponentCount) ∧
    (¬ ("evil.test" = "") ∧ (trimDots "evil.test".toList).contains '.' = true ∧
      ta1 "evil.test" = none ∧
      GetCertificate ta1 none f0 "evil.test" = .error .invalidCharacter) ∧
    (ta0 "evil.test" = some "evil.test" ∧ pol0 "evil.test" = some "not permitted" ∧
      GetCertificate ta0 (some pol0) f0 "evil.test" =
        .error (.notPermitted "not permitted")) :=
  ⟨C8_get_certificate_rejections.1 ta0 none f0,
   ⟨by decide, by decide,
    C8_get_certificate_rejections.2.1 ta0 none f0 "localhost" (by decide) (by decide)⟩,
   ⟨by decide, by decide, rfl,
    C8_get_certificate_rejections.2.2.1 ta1 none f0 "evil.test" (by decide) (by decide)
      rfl⟩,
   ⟨rfl, rfl,
    C8_get_certificate_rejections.2.2.2 ta0 pol0 f0 "evil.test" "evil.test"
      "not permitted" (by decide) (by decide) rfl rfl⟩⟩

/-- C9: an entry whose certRefresh and staplingRefresh are both in the
future is skipped by the refresh pass: refreshEntry yields no store for it
whatever the fetch oracles would answer (so no fetch can be observed), and
the pass over a snapshot performs no store under that entry's domain. -/
theorem C9_refresh_skips_future :
    (∀ (ds : Bool) (now : Int) (cf : Option cacheCertificate) (sf : StapleFetch)
        (citem : cacheCertificate),
      citem.certRefresh > now → citem.staplingRefresh > now →
      refreshEntry ds now cf sf citem = none) ∧
    (∀ (ds : Bool) (now : Int) (cf : String → Option cacheCertificate)
        (sf : String → StapleFetch) (cached : List (String × cacheCertificate))
        (d : String),
      (∀ citem, (d, citem) ∈ cached →
        citem.certRefresh > now ∧ citem.staplingRefresh > now) →
      ∀ p ∈ refreshPass ds now cf sf cached, p.1 ≠ d) := by
  constructor
  · exact fun ds now cf sf citem h1 h2 => refreshEntry_skipped ds now cf sf citem h1 h2
  · intro ds now cf sf cached d hall p hp
    simp only [refreshPass, List.mem_filterMap] at hp
    obtain ⟨a, ha, hfa⟩ := hp
    rw [Option.map_eq_some'] at hfa
    obtain ⟨nc, hnc, hpeq⟩ := hfa
    intro hpd
    have had : a.1 = d := by
      have : (a.1, nc).1 = p.1 := by rw [hpeq]
      simpa [hpd] using this
    have hmem : (d, a.2) ∈ cached := by
      rw [← had]
      exact ha
    obtain ⟨h1, h2⟩ := hall a.2 hmem
    rw [refreshEntry_skipped ds now (cf a.1) (sf a.1) a.2 h1 h2] at hnc
    exact Option.noConfusion hnc

/-- C9 witness: the skip clause at the concrete snapshot entry entry9 with
now = 1000. -/
theorem C9_refresh_skips_future_w :
    entry9.certRefresh > 1000 ∧ entry9.staplingRefresh > 1000 ∧
    refreshEntry false 1000 none none entry9 = none :=
  ⟨by decide, by decide,
   C9_refresh_skips_future.1 false 1000 none none entry9 (by decide) (by decide)⟩

/-- C7: the certRefresh ≤ certExpire invariant of cached entries. Clause 1:
an entry built by requestCertificate from a successful certificate-handler
response produced at the same clock instant satisfies the invariant
(certRefresh = now + ttl with ttl never exceeding the remaining lifetime,
certExpire = the leaf expiry echoed in expire_at). Clause 2: the cache-hit
stapling-abandon replacement preserves it. Clause 3: the cache-miss store
keeps the certificate timestamps of the requestCertificate result
unchanged. Clause 4: every entry the refresh pass stores satisfies the
invariant provided the snapshot entry and any fetched replacement do. -/
theorem C7_refresh_before_expire :
    (∀ (pe : String → List Nat → String) (now : Int) (n : Nat)
        (c : TLSCertificate) (body : certResponseBody) (resp : CertResponse)
        (chain : List (List Nat)) (leaf : Leaf) (key : PrivateKey),
      CertificateHandler pe now n (.ok c) = .ok body →
      resp.expire_at = body.expire_at → resp.ttl = (body.ttl : Int) →
      (requestCertificateModel now resp chain leaf key).certRefresh ≤
        (requestCertificateModel now resp chain leaf key).certExpire) ∧
    (∀ (now : Int) (cached : cacheCertificate),
      cached.certRefresh ≤ cached.certExpire →
      ((getCertificateHit now cached).1).certRefresh ≤
        ((getCertificateHit now cached).1).certExpire) ∧
    (∀ (c : ClientModel) (rc : cacheCertificate) (rs : StapleFetch)
        (stored : cacheCertificate),
      getCertificateMiss c (some rc) rs = some (.ok stored) →
      stored.certRefresh = rc.certRefresh ∧ stored.certExpire = rc.certExpire) ∧
    (∀ (ds : Bool) (now : Int) (cf : Option cacheCertificate) (sf : StapleFetch)
        (citem stored : cacheCertificate),
      citem.certRefresh ≤ citem.certExpire →
      (∀ rc, cf = some rc → rc.certRefresh ≤ rc.certExpire) →
      refreshEntry ds now cf sf citem = some stored →
      stored.certRefresh ≤ stored.certExpire) := by
  refine ⟨?_, ?_, ?_, ?_⟩
  · intro pe now n c body resp chain leaf key h he ht
    simp only [CertificateHandler] at h
    split at h
    · exact absurd h (by simp)
    · rename_i hpos
      split at h
      · exact absurd h (by simp)
      · rename_i privKeyBuf hk
        rw [CertHandlerOutput.ok.injEq] at h
        have hexp : body.expire_at = c.leaf.notAfter := by rw [← h]
        have httl : body.ttl = certTTLSeconds (c.leaf.notAfter - now).toNat n := by
          rw [← h]
        show now + resp.ttl ≤ resp.expire_at
        rw [ht, he, hexp, httl]
        have hle := certTTLSeconds_le_remaining (c.leaf.notAfter - now).toNat n
        simp only [not_le] at hpos
        omega
  · intro now cached hc
    simp only [getCertificateHit]
    split_ifs <;> exact hc
  · intro c rc rs stored h
    simp only [getCertificateMiss] at h
    cases hopts : c.opts with
    | none =>
      rw [hopts] at h
      simp at h
    | some o =>
      rw [hopts] at h
      simp only [Option.some.injEq, Except.ok.injEq] at h
      subst h
      exact ⟨rfl, rfl⟩
  · intro ds now cf sf citem stored hc hcf h
    by_cases hskip : citem.certRefresh > now ∧ citem.staplingRefresh > now
    · rw [refreshEntry_skipped ds now cf sf citem hskip.1 hskip.2] at h
      exact Option.noConfusion h
    · simp only [refreshEntry, if_neg hskip, Option.some.injEq] at h
      subst h
      rcases cf with _ | rc <;> rcases sf with _ | ⟨b, e, r⟩ <;> split_ifs <;>
        first
          | exact hc
          | exact hcf rc rfl

/-- C7 witness: clause 1 at the concrete handler run of the c3 fixture —
the entry built from that response at the same clock instant 1000 has
certRefresh 1795 ≤ certExpire 2000. -/
theorem C7_refresh_before_expire_w :
    CertificateHandler pe0 1000 5 (.ok c3cert) = .ok c3body ∧
    c7resp.expire_at = c3body.expire_at ∧
    c7resp.ttl = (c3body.ttl : Int) ∧
    (requestCertificateModel 1000 c7resp [[2]] c2leaf .other).certRefresh ≤
      (requestCertificateModel 1000 c7resp [[2]] c2leaf .other).certExpire :=
  ⟨by decide, by decide, by decide,
   C7_refresh_before_expire.1 pe0 1000 5 c3cert c3body c7resp [[2]] c2leaf .other
     (by decide) (by decide) (by decide)⟩
